import Mathlib

/-!
Verification of the eddie monitoring cycle engine.

Shallow embedding of the Go sources:
  internal/state (SpecState, Status, the in-memory store interface),
  internal/monitor/runner.go (applyCycleResult, resetStaleConsecutiveState,
    thresholdOrDefault, handleCycleResult, runCycle, the dispatch helpers),
  internal/http/server.go (buildStatusViewData),
  internal/spec (the check-definition record),
  cmd/eddie main (the WithStatusSnapshot closure).

Machine integers (Go int, time.Duration in nanoseconds, time.Time
instants) are modelled as Lean Int; a Go time.Time is an instant whose
zero value (IsZero) corresponds to the integer 0.  Overflow is ignored:
all quantities involved stay far inside the int64 range for any
realistic configuration.
-/

namespace Eddie

/-- internal/state: Status is a string in Go with the two constants
StatusHealthy = "healthy" and StatusFailing = "failing"; the runner only
ever stores these two values, so it is embedded as a two-constructor
inductive plus the string conversion used by the snapshot closure. -/
inductive Status where
  | healthy
  | failing
deriving DecidableEq, Repr

/-- string(status) for the two runner-produced constants. -/
def statusToString : Status → String
  | Status.healthy => "healthy"
  | Status.failing => "failing"

/-- internal/state: SpecState tracks cycle counters and status for one
spec.  Times are Int instants, 0 meaning the Go zero time. -/
structure SpecState where
  status : Status
  consecutiveFailures : Int
  consecutiveSuccesses : Int
  lastCycleStartedAt : Int
  lastCycleAt : Int
deriving DecidableEq, Repr

/-- internal/monitor/runner.go: transitionType. -/
inductive transitionType where
  | transitionNone
  | transitionFailure
  | transitionRecovery
deriving DecidableEq, Repr

/-- internal/monitor/runner.go: staleCycleGapMultiplier = 2. -/
def staleCycleGapMultiplier : Int := 2

/-- internal/monitor/runner.go lines 128-144: resetStaleConsecutiveState.
cycleAt and current.lastCycleAt are instants, cycleInterval a duration,
all in the same (nanosecond) unit; cycleAt.Sub(lastCycleAt) is the
difference. -/
def resetStaleConsecutiveState (current : SpecState) (cycleAt : Int)
    (cycleInterval : Int) : SpecState :=
  if current.lastCycleAt = 0 ∨ cycleInterval ≤ 0 then
    current
  else
    let maxGap := cycleInterval * staleCycleGapMultiplier
    if maxGap ≤ 0 then
      current
    else if cycleAt - current.lastCycleAt ≤ maxGap then
      current
    else
      { current with consecutiveFailures := 0, consecutiveSuccesses := 0 }

/-- internal/monitor/runner.go lines 146-180: applyCycleResult, the
hysteresis state machine.  Field updates mirror the Go assignments to
the value-copied struct. -/
def applyCycleResult (current : SpecState) (success : Bool)
    (failureThreshold : Int) (successThreshold : Int) :
    SpecState × transitionType :=
  if success then
    let current := { current with consecutiveFailures := 0 }
    if current.status = Status.failing then
      let current :=
        { current with consecutiveSuccesses := current.consecutiveSuccesses + 1 }
      if successThreshold ≤ current.consecutiveSuccesses then
        ({ current with status := Status.healthy, consecutiveSuccesses := 0 },
          transitionType.transitionRecovery)
      else
        (current, transitionType.transitionNone)
    else
      ({ current with consecutiveSuccesses := 0 }, transitionType.transitionNone)
  else
    let current := { current with consecutiveSuccesses := 0 }
    if current.status = Status.failing then
      ({ current with consecutiveFailures := current.consecutiveFailures + 1 },
        transitionType.transitionNone)
    else
      let current :=
        { current with consecutiveFailures := current.consecutiveFailures + 1 }
      if failureThreshold ≤ current.consecutiveFailures then
        ({ current with status := Status.failing, consecutiveFailures := 0 },
          transitionType.transitionFailure)
      else
        (current, transitionType.transitionNone)

/-- internal/monitor/runner.go lines 182-187: thresholdOrDefault. -/
def thresholdOrDefault (value : Int) (fallback : Int) : Int :=
  if value ≤ 0 then fallback else value

/-- The state a never-seen target starts from (handleCycleResult line 98:
state.SpecState{Status: state.StatusHealthy}, all other fields zero). -/
def initialSpecState : SpecState :=
  { status := Status.healthy
  , consecutiveFailures := 0
  , consecutiveSuccesses := 0
  , lastCycleStartedAt := 0
  , lastCycleAt := 0 }

end Eddie

namespace Eddie

/-- C1: one step of applyCycleResult behaves exactly as §4.3 describes,
for any per-target state and resolved thresholds at least 1: success
zeroes consecutiveFailures, accumulates successes only while Failing and
flips to Healthy with a Recovered transition exactly when the
incremented success counter reaches successThreshold; failure zeroes
consecutiveSuccesses, accumulates failures, flips Healthy to Failing
with an EnteredFailing transition exactly when the incremented failure
counter reaches failureThreshold, and while already Failing keeps
counting failures without re-emitting a transition.  The final conjunct
replays the §8 scenario (thresholds 2/2, starting Healthy). -/
theorem applyCycleResult_spec (s : SpecState) (fT sT : Int)
    (hf : 1 ≤ fT) (hs : 1 ≤ sT) :
    ((applyCycleResult s true fT sT).1.consecutiveFailures = 0 ∧
      (s.status = Status.failing →
        (sT ≤ s.consecutiveSuccesses + 1 →
          applyCycleResult s true fT sT =
            ({ s with consecutiveFailures := 0, consecutiveSuccesses := 0, status := Status.healthy },
              transitionType.transitionRecovery)) ∧
        (s.consecutiveSuccesses + 1 < sT →
          applyCycleResult s true fT sT =
            ({ s with consecutiveFailures := 0, consecutiveSuccesses := s.consecutiveSuccesses + 1 },
              transitionType.transitionNone))) ∧
      (s.status = Status.healthy →
        applyCycleResult s true fT sT =
          ({ s with consecutiveFailures := 0, consecutiveSuccesses := 0 },
            transitionType.transitionNone))) ∧
    ((applyCycleResult s false fT sT).1.consecutiveSuccesses = 0 ∧
      (s.status = Status.failing →
        applyCycleResult s false fT sT =
          ({ s with consecutiveSuccesses := 0, consecutiveFailures := s.consecutiveFailures + 1 },
            transitionType.transitionNone)) ∧
      (s.status = Status.healthy →
        (fT ≤ s.consecutiveFailures + 1 →
          applyCycleResult s false fT sT =
            ({ s with consecutiveSuccesses := 0, consecutiveFailures := 0, status := Status.failing },
              transitionType.transitionFailure)) ∧
        (s.consecutiveFailures + 1 < fT →
          applyCycleResult s false fT sT =
            ({ s with consecutiveSuccesses := 0, consecutiveFailures := s.consecutiveFailures + 1 },
              transitionType.transitionNone)))) ∧
    (applyCycleResult initialSpecState false 2 2 =
        ({ initialSpecState with consecutiveFailures := 1 },
          transitionType.transitionNone) ∧
      applyCycleResult { initialSpecState with consecutiveFailures := 1 }
          false 2 2 =
        ({ initialSpecState with status := Status.failing },
          transitionType.transitionFailure) ∧
      applyCycleResult { initialSpecState with status := Status.failing }
          true 2 2 =
        ({ initialSpecState with status := Status.failing, consecutiveSuccesses := 1 },
          transitionType.transitionNone) ∧
      applyCycleResult { initialSpecState with status := Status.failing, consecutiveSuccesses := 1 } true 2 2 =
        (initialSpecState, transitionType.transitionRecovery)) := by
  refine ⟨⟨?_, ?_, ?_⟩, ⟨?_, ?_, ?_⟩, by decide⟩
  · cases hst : s.status <;>
      simp [applyCycleResult, hst] <;> split <;> simp
  · intro hst
    constructor
    · intro hge
      simp [applyCycleResult, hst, hge]
    · intro hlt
      have : ¬ sT ≤ s.consecutiveSuccesses + 1 := by omega
      simp [applyCycleResult, hst, this]
  · intro hst
    simp [applyCycleResult, hst]
  · cases hst : s.status <;> simp [applyCycleResult, hst] <;> split <;> simp
  · intro hst
    simp [applyCycleResult, hst]
  · intro hst
    constructor
    · intro hge
      simp [applyCycleResult, hst, hge]
    · intro hlt
      have : ¬ fT ≤ s.consecutiveFailures + 1 := by omega
      simp [applyCycleResult, hst, this]

/-- Witness for C1 at the concrete state of the §8 scenario start and
thresholds 2/2. -/
theorem applyCycleResult_spec_witness :
    ((applyCycleResult initialSpecState true 2 2).1.consecutiveFailures = 0 ∧
      (initialSpecState.status = Status.failing →
        (2 ≤ initialSpecState.consecutiveSuccesses + 1 →
          applyCycleResult initialSpecState true 2 2 =
            ({ initialSpecState with consecutiveFailures := 0, consecutiveSuccesses := 0, status := Status.healthy },
              transitionType.transitionRecovery)) ∧
        (initialSpecState.consecutiveSuccesses + 1 < 2 →
          applyCycleResult initialSpecState true 2 2 =
            ({ initialSpecState with consecutiveFailures := 0, consecutiveSuccesses := initialSpecState.consecutiveSuccesses + 1 },
              transitionType.transitionNone))) ∧
      (initialSpecState.status = Status.healthy →
        applyCycleResult initialSpecState true 2 2 =
          ({ initialSpecState with consecutiveFailures := 0, consecutiveSuccesses := 0 },
            transitionType.transitionNone))) ∧
    ((applyCycleResult initialSpecState false 2 2).1.consecutiveSuccesses = 0 ∧
      (initialSpecState.status = Status.failing →
        applyCycleResult initialSpecState false 2 2 =
          ({ initialSpecState with consecutiveSuccesses := 0, consecutiveFailures := initialSpecState.consecutiveFailures + 1 },
            transitionType.transitionNone)) ∧
      (initialSpecState.status = Status.healthy →
        (2 ≤ initialSpecState.consecutiveFailures + 1 →
          applyCycleResult initialSpecState false 2 2 =
            ({ initialSpecState with consecutiveSuccesses := 0, consecutiveFailures := 0, status := Status.failing },
              transitionType.transitionFailure)) ∧
        (initialSpecState.consecutiveFailures + 1 < 2 →
          applyCycleResult initialSpecState false 2 2 =
            ({ initialSpecState with consecutiveSuccesses := 0, consecutiveFailures := initialSpecState.consecutiveFailures + 1 },
              transitionType.transitionNone)))) ∧
    (applyCycleResult initialSpecState false 2 2 =
        ({ initialSpecState with consecutiveFailures := 1 },
          transitionType.transitionNone) ∧
      applyCycleResult { initialSpecState with consecutiveFailures := 1 }
          false 2 2 =
        ({ initialSpecState with status := Status.failing },
          transitionType.transitionFailure) ∧
      applyCycleResult { initialSpecState with status := Status.failing }
          true 2 2 =
        ({ initialSpecState with status := Status.failing, consecutiveSuccesses := 1 },
          transitionType.transitionNone) ∧
      applyCycleResult { initialSpecState with status := Status.failing, consecutiveSuccesses := 1 } true 2 2 =
        (initialSpecState, transitionType.transitionRecovery)) :=
  applyCycleResult_spec initialSpecState 2 2 (by decide) (by decide)

end Eddie

namespace Eddie

/-- §3 mutual-exclusion property of the two consecutive counters. -/
def counterMutex (s : SpecState) : Prop :=
  (0 < s.consecutiveFailures → s.consecutiveSuccesses = 0) ∧
  (0 < s.consecutiveSuccesses → s.consecutiveFailures = 0)

/-- States reachable from the initial per-target state by any sequence of
staleness-guard resets and hysteresis steps with resolved thresholds at
least 1 (the only writers of the counters in the runner). -/
inductive ReachableState : SpecState → Prop where
  | init : ReachableState initialSpecState
  | stale (s : SpecState) (cycleAt cycleInterval : Int) :
      ReachableState s →
      ReachableState (resetStaleConsecutiveState s cycleAt cycleInterval)
  | cycle (s : SpecState) (success : Bool) (fT sT : Int) :
      1 ≤ fT → 1 ≤ sT → ReachableState s →
      ReachableState (applyCycleResult s success fT sT).1

/-- The state produced by one hysteresis step always satisfies the
mutual-exclusion property: whichever branch is taken, at least one of
the two counters is assigned 0. -/
lemma counterMutex_applyCycleResult (s : SpecState) (success : Bool)
    (fT sT : Int) : counterMutex (applyCycleResult s success fT sT).1 := by
  unfold counterMutex applyCycleResult
  cases hst : s.status <;> cases success <;> simp [hst] <;>
    split_ifs <;> simp <;> omega

/-- The staleness guard preserves the mutual-exclusion property: it
either leaves the state unchanged or zeroes both counters. -/
lemma counterMutex_resetStale (s : SpecState) (cycleAt cycleInterval : Int)
    (h : counterMutex s) :
    counterMutex (resetStaleConsecutiveState s cycleAt cycleInterval) := by
  simp only [resetStaleConsecutiveState]
  split_ifs <;> first | exact h | constructor <;> intro <;> rfl

/-- C2: every state reachable from the initial state through
staleness-guard resets and hysteresis steps (thresholds at least 1)
satisfies the mutual-exclusion invariant on the consecutive counters. -/
theorem reachable_counterMutex (s : SpecState) (h : ReachableState s) :
    counterMutex s := by
  induction h with
  | init => exact ⟨fun h => rfl, fun h => rfl⟩
  | stale s cycleAt cycleInterval _ ih =>
      exact counterMutex_resetStale s cycleAt cycleInterval ih
  | cycle s success fT sT hf hs _ _ =>
      exact counterMutex_applyCycleResult s success fT sT

/-- Witness for C2: the state after one failure step from the initial
state satisfies the invariant. -/
theorem reachable_counterMutex_witness :
    counterMutex (applyCycleResult initialSpecState false 2 2).1 :=
  reachable_counterMutex (applyCycleResult initialSpecState false 2 2).1
    (ReachableState.cycle initialSpecState false 2 2 (by decide) (by decide)
      ReachableState.init)

/-- Concrete state used to replay the §8 staleness examples: a recorded
completion instant and non-zero counters in both fields (the guard does
not care about the hysteresis invariant). -/
def exampleStaleState : SpecState :=
  { status := Status.failing
  , consecutiveFailures := 3
  , consecutiveSuccesses := 5
  , lastCycleStartedAt := 7
  , lastCycleAt := 1000000000000 }

/-- C3: with a recorded (non-zero) completion instant and a positive
interval, the staleness guard zeroes both counters exactly when the
elapsed time strictly exceeds twice the cycle interval, never touches
any other field, and on the §8 examples (interval one minute, in
nanoseconds) resets after a 3-minute gap and does nothing after a
90-second gap. -/
theorem resetStaleConsecutiveState_spec (s : SpecState)
    (cycleAt cycleInterval : Int) (hlast : s.lastCycleAt ≠ 0)
    (hpos : 0 < cycleInterval) :
    (2 * cycleInterval < cycleAt - s.lastCycleAt →
      resetStaleConsecutiveState s cycleAt cycleInterval =
        { s with consecutiveFailures := 0, consecutiveSuccesses := 0 }) ∧
    (cycleAt - s.lastCycleAt ≤ 2 * cycleInterval →
      resetStaleConsecutiveState s cycleAt cycleInterval = s) ∧
    ((resetStaleConsecutiveState s cycleAt cycleInterval).status = s.status ∧
      (resetStaleConsecutiveState s cycleAt cycleInterval).lastCycleStartedAt =
        s.lastCycleStartedAt ∧
      (resetStaleConsecutiveState s cycleAt cycleInterval).lastCycleAt =
        s.lastCycleAt) ∧
    resetStaleConsecutiveState exampleStaleState
        (1000000000000 + 180000000000) 60000000000 =
      { exampleStaleState with consecutiveFailures := 0, consecutiveSuccesses := 0 } ∧
    resetStaleConsecutiveState exampleStaleState
        (1000000000000 + 90000000000) 60000000000 = exampleStaleState := by
  refine ⟨?_, ?_, ?_, by decide, by decide⟩
  · intro hgap
    simp only [resetStaleConsecutiveState, staleCycleGapMultiplier]
    split_ifs with h1 h2 h3 <;> first | rfl | omega
  · intro hgap
    simp only [resetStaleConsecutiveState, staleCycleGapMultiplier]
    split_ifs with h1 h2 h3 <;> first | rfl | omega
  · simp only [resetStaleConsecutiveState, staleCycleGapMultiplier]
    split_ifs <;> exact ⟨rfl, rfl, rfl⟩

/-- Witness for C3 at the §8 example state: 3-minute gap, 1-minute
interval. -/
theorem resetStaleConsecutiveState_spec_witness :
    (2 * 60000000000 <
        (1000000000000 + 180000000000) - exampleStaleState.lastCycleAt →
      resetStaleConsecutiveState exampleStaleState
          (1000000000000 + 180000000000) 60000000000 =
        { exampleStaleState with consecutiveFailures := 0, consecutiveSuccesses := 0 }) ∧
    ((1000000000000 + 180000000000) - exampleStaleState.lastCycleAt ≤
        2 * 60000000000 →
      resetStaleConsecutiveState exampleStaleState
          (1000000000000 + 180000000000) 60000000000 = exampleStaleState) ∧
    ((resetStaleConsecutiveState exampleStaleState
          (1000000000000 + 180000000000) 60000000000).status =
        exampleStaleState.status ∧
      (resetStaleConsecutiveState exampleStaleState
          (1000000000000 + 180000000000) 60000000000).lastCycleStartedAt =
        exampleStaleState.lastCycleStartedAt ∧
      (resetStaleConsecutiveState exampleStaleState
          (1000000000000 + 180000000000) 60000000000).lastCycleAt =
        exampleStaleState.lastCycleAt) ∧
    resetStaleConsecutiveState exampleStaleState
        (1000000000000 + 180000000000) 60000000000 =
      { exampleStaleState with consecutiveFailures := 0, consecutiveSuccesses := 0 } ∧
    resetStaleConsecutiveState exampleStaleState
        (1000000000000 + 90000000000) 60000000000 = exampleStaleState :=
  resetStaleConsecutiveState_spec exampleStaleState
    (1000000000000 + 180000000000) 60000000000 (by decide) (by decide)

/-- C4: with fallback 1 (the value used for both thresholds at the only
call sites, handleCycleResult lines 92-93), thresholdOrDefault is
max(value, 1): non-positive configured values silently become 1, so the
resolved threshold is never below 1; the three §8 sample points follow. -/
theorem thresholdOrDefault_spec (v : Int) :
    thresholdOrDefault v 1 = max v 1 ∧
    1 ≤ thresholdOrDefault v 1 ∧
    thresholdOrDefault 0 1 = 1 ∧
    thresholdOrDefault (-5) 1 = 1 ∧
    thresholdOrDefault 3 1 = 3 := by
  refine ⟨?_, ?_, by decide, by decide, by decide⟩ <;>
    simp only [thresholdOrDefault] <;> split_ifs with h <;> omega

/-- C10: the per-target counter-bound invariant, relative to fixed
resolved thresholds at least 1. -/
def counterBound (fT sT : Int) (s : SpecState) : Prop :=
  (s.status = Status.healthy →
    s.consecutiveSuccesses = 0 ∧ s.consecutiveFailures < fT) ∧
  (s.status = Status.failing → s.consecutiveSuccesses < sT)

/-- C10: for thresholds at least 1, the initial state satisfies the
counter-bound invariant and one hysteresis step preserves it: a healthy
state keeps consecutiveSuccesses at 0 and consecutiveFailures strictly
below the failure threshold, and a failing state keeps
consecutiveSuccesses strictly below the success threshold (only
consecutiveFailures while already Failing is unbounded). -/
theorem counterBound_invariant (fT sT : Int) (hf : 1 ≤ fT) (hs : 1 ≤ sT) :
    counterBound fT sT initialSpecState ∧
    ∀ (s : SpecState) (success : Bool), counterBound fT sT s →
      counterBound fT sT (applyCycleResult s success fT sT).1 := by
  constructor
  · refine ⟨fun _ => ⟨rfl, ?_⟩, fun h => by simp [initialSpecState] at h⟩
    simp only [initialSpecState]
    omega
  · intro s success hinv
    rcases hinv with ⟨hH, hF⟩
    unfold counterBound applyCycleResult
    cases hst : s.status <;> cases success <;> simp [hst] at hH hF ⊢ <;>
      first
        | omega
        | (constructor <;> omega)
        | (split_ifs <;> simp <;> omega)
        | (split_ifs <;> simp <;> (constructor <;> omega))

/-- Witness for C10 at thresholds 2/2 and one failure step from the
initial state. -/
theorem counterBound_invariant_witness :
    counterBound 2 2 initialSpecState ∧
    counterBound 2 2 (applyCycleResult initialSpecState false 2 2).1 :=
  ⟨(counterBound_invariant 2 2 (by decide) (by decide)).1,
    (counterBound_invariant 2 2 (by decide) (by decide)).2 initialSpecState
      false (counterBound_invariant 2 2 (by decide) (by decide)).1⟩

end Eddie

namespace Eddie

/-- internal/spec: SpecCycles. -/
structure SpecCycles where
  failure : Int
  success : Int
deriving DecidableEq, Repr

/-- internal/spec: HTTPExpectBody. -/
structure HTTPExpectBody where
  exact : String
  contains : String
deriving DecidableEq, Repr

/-- internal/spec: HTTPExpect.  The expected headers, a Go map iterated
by range, are embedded as an association list in a fixed order. -/
structure HTTPExpect where
  code : Int
  header : List (String × String)
  body : HTTPExpectBody
deriving DecidableEq, Repr

/-- internal/spec: HTTPSpec. -/
structure HTTPSpec where
  disabled : Bool
  name : String
  method : String
  followRedirects : Bool
  url : String
  args : List (String × String)
  timeout : Int
  expect : HTTPExpect
  cycles : SpecCycles
  onFailure : String
  onSuccess : String
deriving DecidableEq, Repr

/-- internal/spec: Spec, one check definition. -/
structure Spec where
  version : Int
  http : HTTPSpec
  sourcePath : String
deriving DecidableEq, Repr

/-- internal/spec: IsActive. -/
def Spec.IsActive (s : Spec) : Bool := !s.http.disabled

/-- internal/state: the store, keyed by spec name; Get is application,
Set is pointwise update. -/
def Store := String → Option SpecState

/-- A store with no recorded state (NewInMemoryStore). -/
def emptyStore : Store := fun _ => none

/-- internal/state: InMemoryStore.Set. -/
def storeSet (store : Store) (name : String) (st : SpecState) : Store :=
  fun n => if n = name then some st else store n

/-- runner.go lines 91-110, the state-updating part of
handleCycleResult: resolve thresholds, Get (or initialize) the state,
run the staleness guard, run the hysteresis step, stamp LastCycleAt with
the observed instant, Set.  Returns the updated store and the emitted
transition. -/
def handleCycleResult (cycleInterval : Int) (store : Store) (sp : Spec)
    (checkSuccess : Bool) (cycleAt : Int) : Store × transitionType :=
  let failureThreshold := thresholdOrDefault sp.http.cycles.failure 1
  let successThreshold := thresholdOrDefault sp.http.cycles.success 1
  let currentState := (store sp.http.name).getD initialSpecState
  let currentState := resetStaleConsecutiveState currentState cycleAt cycleInterval
  let res := applyCycleResult currentState checkSuccess failureThreshold
    successThreshold
  let nextState := { res.1 with lastCycleAt := cycleAt }
  (storeSet store sp.http.name nextState, res.2)

/-- runner.go lines 72-89: one cycle.  Inactive specs are skipped before
any task is spawned; each active spec runs in its own goroutine and the
goroutines write disjoint keys (spec names are validated unique), so the
round is modelled as a fold in list order.  outcome gives each probe's
boolean result and probeAt the time.Now() instant its goroutine
observes. -/
def runCycle (cycleInterval : Int) (outcome : Spec → Bool)
    (probeAt : Spec → Int) (store : Store) (specs : List Spec) : Store :=
  specs.foldl
    (fun st sp =>
      if sp.IsActive then
        (handleCycleResult cycleInterval st sp (outcome sp) (probeAt sp)).1
      else st)
    store

/-- n consecutive cycles driven by the scheduler loop, cycle k using the
outcome and instant families at k. -/
def iterateCycles (cycleInterval : Int) (outcome : Nat → Spec → Bool)
    (probeAt : Nat → Spec → Int) (specs : List Spec) :
    Nat → Store → Store
  | 0, store => store
  | n + 1, store =>
      iterateCycles cycleInterval outcome probeAt specs n
        (runCycle cycleInterval (outcome n) (probeAt n) store specs)

/-- internal/http: SpecStatus, one spec row handed to the renderer. -/
structure SpecStatus where
  name : String
  sourcePath : String
  disabled : Bool
  hasState : Bool
  status : String
  consecutiveFailures : Int
  consecutiveSuccesses : Int
  lastCycleStartedAt : Int
  lastCycleAt : Int
deriving DecidableEq, Repr

/-- internal/http: StatusSnapshot. -/
structure StatusSnapshot where
  generatedAt : Int
  specs : List SpecStatus
deriving DecidableEq, Repr

/-- internal/http: statusRow, the serialized per-target fields. -/
structure statusRow where
  name : String
  sourcePath : String
  disabled : Bool
  hasState : Bool
  state : String
  consecutiveFailures : Int
  consecutiveSuccesses : Int
  lastCycleStartedAt : String
  lastCycleAt : String
  stateClass : String
deriving DecidableEq, Repr

/-- internal/http: statusViewData. -/
structure statusViewData where
  generatedAt : String
  specCount : Nat
  rows : List statusRow
deriving DecidableEq, Repr

/-- server.go lines 582-616, the loop body of buildStatusViewData for
one spec.  The parameter fmt stands for the opaque Go rendering
t.UTC().Format(time.RFC3339Nano) of a non-zero instant. -/
def buildStatusRow (fmt : Int → String) (specStatus : SpecStatus) :
    statusRow :=
  let lastCycleStarted :=
    if specStatus.hasState ∧ specStatus.lastCycleStartedAt ≠ 0 then
      fmt specStatus.lastCycleStartedAt
    else "never"
  let lastCycle :=
    if specStatus.hasState ∧ specStatus.lastCycleAt ≠ 0 then
      fmt specStatus.lastCycleAt
    else "never"
  let status := if specStatus.status = "" then "unknown" else specStatus.status
  let stateClass :=
    if status = "healthy" then "state-healthy"
    else if status = "failing" then "state-failing"
    else "state-unknown"
  { name := specStatus.name
  , sourcePath := specStatus.sourcePath
  , disabled := specStatus.disabled
  , hasState := specStatus.hasState
  , state := status
  , consecutiveFailures := specStatus.consecutiveFailures
  , consecutiveSuccesses := specStatus.consecutiveSuccesses
  , lastCycleStartedAt := lastCycleStarted
  , lastCycleAt := lastCycle
  , stateClass := stateClass }

/-- server.go lines 575-620: buildStatusViewData.  The append loop over
snapshot.Specs is a map in list order. -/
def buildStatusViewData (fmt : Int → String) (snapshot : StatusSnapshot) :
    statusViewData :=
  { generatedAt := fmt snapshot.generatedAt
  , specCount := snapshot.specs.length
  , rows := snapshot.specs.map (buildStatusRow fmt) }

/-- cmd/eddie main, the WithStatusSnapshot closure: for every parsed
spec, Get its state; a miss yields the Go zero SpecState, whose string
Status is the empty string and whose instants are the zero time. -/
def snapshotOf (specs : List Spec) (store : Store) (now : Int) :
    StatusSnapshot :=
  { generatedAt := now
  , specs := specs.map (fun sp =>
      match store sp.http.name with
      | some st =>
          { name := sp.http.name
          , sourcePath := sp.sourcePath
          , disabled := !sp.IsActive
          , hasState := true
          , status := statusToString st.status
          , consecutiveFailures := st.consecutiveFailures
          , consecutiveSuccesses := st.consecutiveSuccesses
          , lastCycleStartedAt := st.lastCycleStartedAt
          , lastCycleAt := st.lastCycleAt }
      | none =>
          { name := sp.http.name
          , sourcePath := sp.sourcePath
          , disabled := !sp.IsActive
          , hasState := false
          , status := ""
          , consecutiveFailures := 0
          , consecutiveSuccesses := 0
          , lastCycleStartedAt := 0
          , lastCycleAt := 0 }) }

/-- The SpecStatus row the snapshot closure builds for a spec with no
recorded state. -/
def missingSpecStatus (sp : Spec) : SpecStatus :=
  { name := sp.http.name
  , sourcePath := sp.sourcePath
  , disabled := !sp.IsActive
  , hasState := false
  , status := ""
  , consecutiveFailures := 0
  , consecutiveSuccesses := 0
  , lastCycleStartedAt := 0
  , lastCycleAt := 0 }

end Eddie

namespace Eddie

/-- C5: for every snapshot, every SpecStatus row is rendered by
buildStatusViewData in order; a target with no recorded state (hasState
false, empty status string) renders as state unknown with both cycle
instants shown as never, and a target with recorded healthy state and
non-zero instants renders as state healthy with both instants passed
through the RFC3339 formatter fmt. -/
theorem buildStatusViewData_spec (fmt : Int → String)
    (snapshot : StatusSnapshot) (ss : SpecStatus)
    (hmem : ss ∈ snapshot.specs) :
    buildStatusRow fmt ss ∈ (buildStatusViewData fmt snapshot).rows ∧
    (ss.hasState = false → ss.status = "" →
      (buildStatusRow fmt ss).state = "unknown" ∧
      (buildStatusRow fmt ss).lastCycleStartedAt = "never" ∧
      (buildStatusRow fmt ss).lastCycleAt = "never") ∧
    (ss.hasState = true → ss.status = "healthy" →
      ss.lastCycleStartedAt ≠ 0 → ss.lastCycleAt ≠ 0 →
      (buildStatusRow fmt ss).state = "healthy" ∧
      (buildStatusRow fmt ss).lastCycleStartedAt = fmt ss.lastCycleStartedAt ∧
      (buildStatusRow fmt ss).lastCycleAt = fmt ss.lastCycleAt) := by
  refine ⟨List.mem_map_of_mem (buildStatusRow fmt) hmem, ?_, ?_⟩
  · intro hns hstat
    simp [buildStatusRow, hns, hstat]
  · intro hhs hstat ht1 ht2
    simp [buildStatusRow, hhs, hstat, ht1, ht2]

/-- A concrete disabled check definition, used by concrete witnesses. -/
def exampleDisabledSpec : Spec :=
  { version := 1
  , http :=
    { disabled := true
    , name := "example"
    , method := ""
    , followRedirects := false
    , url := "https://example.invalid/"
    , args := []
    , timeout := 0
    , expect := { code := 0, header := [], body := { exact := "", contains := "" } }
    , cycles := { failure := 0, success := 0 }
    , onFailure := ""
    , onSuccess := "" }
  , sourcePath := "example.yaml" }

/-- Witness for C5: a one-row snapshot holding a stateless target. -/
theorem buildStatusViewData_spec_witness :
    (buildStatusRow (fun t => toString t) (missingSpecStatus exampleDisabledSpec) ∈
        (buildStatusViewData (fun t => toString t)
          { generatedAt := 0, specs := [missingSpecStatus exampleDisabledSpec] }).rows ∧
      ((missingSpecStatus exampleDisabledSpec).hasState = false →
        (missingSpecStatus exampleDisabledSpec).status = "" →
        (buildStatusRow (fun t => toString t)
            (missingSpecStatus exampleDisabledSpec)).state = "unknown" ∧
        (buildStatusRow (fun t => toString t)
            (missingSpecStatus exampleDisabledSpec)).lastCycleStartedAt = "never" ∧
        (buildStatusRow (fun t => toString t)
            (missingSpecStatus exampleDisabledSpec)).lastCycleAt = "never") ∧
      ((missingSpecStatus exampleDisabledSpec).hasState = true →
        (missingSpecStatus exampleDisabledSpec).status = "healthy" →
        (missingSpecStatus exampleDisabledSpec).lastCycleStartedAt ≠ 0 →
        (missingSpecStatus exampleDisabledSpec).lastCycleAt ≠ 0 →
        (buildStatusRow (fun t => toString t)
            (missingSpecStatus exampleDisabledSpec)).state = "healthy" ∧
        (buildStatusRow (fun t => toString t)
            (missingSpecStatus exampleDisabledSpec)).lastCycleStartedAt =
          toString (missingSpecStatus exampleDisabledSpec).lastCycleStartedAt ∧
        (buildStatusRow (fun t => toString t)
            (missingSpecStatus exampleDisabledSpec)).lastCycleAt =
          toString (missingSpecStatus exampleDisabledSpec).lastCycleAt)) :=
  buildStatusViewData_spec (fun t => toString t)
    { generatedAt := 0, specs := [missingSpecStatus exampleDisabledSpec] }
    (missingSpecStatus exampleDisabledSpec) (List.mem_singleton.mpr rfl)

/-- One cycle never writes a key that no active spec claims. -/
lemma runCycle_unclaimed_key (cycleInterval : Int) (outcome : Spec → Bool)
    (probeAt : Spec → Int) (specs : List Spec) (store : Store)
    (name : String)
    (hname : ∀ sp ∈ specs, sp.http.name = name → sp.IsActive = false) :
    runCycle cycleInterval outcome probeAt store specs name = store name := by
  induction specs generalizing store with
  | nil => rfl
  | cons sp rest ih =>
      have hrest : ∀ sp2 ∈ rest, sp2.http.name = name → sp2.IsActive = false :=
        fun sp2 hm he => hname sp2 (List.mem_cons_of_mem sp hm) he
      by_cases hact : sp.IsActive
      · have hne : sp.http.name ≠ name := by
          intro he
          have := hname sp (List.mem_cons_self sp rest) he
          simp [hact] at this
        simp only [runCycle, List.foldl_cons, hact, if_true]
        have := ih ((handleCycleResult cycleInterval store sp (outcome sp)
          (probeAt sp)).1) hrest
        simp only [runCycle] at this
        rw [this]
        have hne2 : ¬ (name = sp.http.name) := fun he => hne he.symm
        simp [handleCycleResult, storeSet, hne2]
      · simp only [runCycle, List.foldl_cons, hact, if_false]
        have := ih store hrest
        simp only [runCycle] at this
        exact this

/-- Iterated cycles never write a key that no active spec claims. -/
lemma iterateCycles_unclaimed_key (cycleInterval : Int)
    (outcome : Nat → Spec → Bool) (probeAt : Nat → Spec → Int)
    (specs : List Spec) (name : String) (n : Nat) (store : Store)
    (hname : ∀ sp ∈ specs, sp.http.name = name → sp.IsActive = false) :
    iterateCycles cycleInterval outcome probeAt specs n store name =
      store name := by
  induction n generalizing store with
  | zero => rfl
  | succ k ih =>
      simp only [iterateCycles]
      rw [ih (runCycle cycleInterval (outcome k) (probeAt k) store specs)]
      exact runCycle_unclaimed_key cycleInterval (outcome k) (probeAt k)
        specs store name hname

/-- C6: a disabled check definition is skipped entirely: after any
number of cycles from the empty store (assuming, per the parser's name
validation, that no active spec shares its name) no state exists under
its name, yet the snapshot still counts it in specCount and renders it
with disabled true, hasState false, and both cycle instants as
never. -/
theorem disabled_spec_skipped (cycleInterval : Int)
    (outcome : Nat → Spec → Bool) (probeAt : Nat → Spec → Int)
    (specs : List Spec) (sp : Spec) (fmt : Int → String) (now : Int)
    (n : Nat) (hmem : sp ∈ specs) (hdis : sp.http.disabled = true)
    (hname : ∀ sp2 ∈ specs, sp2.http.name = sp.http.name →
      sp2.http.disabled = true) :
    iterateCycles cycleInterval outcome probeAt specs n emptyStore
        sp.http.name = none ∧
    (snapshotOf specs
        (iterateCycles cycleInterval outcome probeAt specs n emptyStore)
        now).specs.length = specs.length ∧
    (buildStatusViewData fmt (snapshotOf specs
        (iterateCycles cycleInterval outcome probeAt specs n emptyStore)
        now)).specCount = specs.length ∧
    missingSpecStatus sp ∈ (snapshotOf specs
        (iterateCycles cycleInterval outcome probeAt specs n emptyStore)
        now).specs ∧
    (missingSpecStatus sp).disabled = true ∧
    (missingSpecStatus sp).hasState = false ∧
    buildStatusRow fmt (missingSpecStatus sp) ∈
      (buildStatusViewData fmt (snapshotOf specs
        (iterateCycles cycleInterval outcome probeAt specs n emptyStore)
        now)).rows ∧
    (buildStatusRow fmt (missingSpecStatus sp)).lastCycleStartedAt =
      "never" ∧
    (buildStatusRow fmt (missingSpecStatus sp)).lastCycleAt = "never" := by
  have hmiss : iterateCycles cycleInterval outcome probeAt specs n
      emptyStore sp.http.name = none := by
    rw [iterateCycles_unclaimed_key cycleInterval outcome probeAt specs
      sp.http.name n emptyStore]
    · rfl
    · intro sp2 hm he
      simp [Spec.IsActive, hname sp2 hm he]
  refine ⟨hmiss, by simp [snapshotOf], by simp [buildStatusViewData, snapshotOf],
    ?_, ?_, rfl, ?_, ?_, ?_⟩
  · have : (fun spec =>
        match iterateCycles cycleInterval outcome probeAt specs n emptyStore
            spec.http.name with
        | some st =>
            ({ name := spec.http.name, sourcePath := spec.sourcePath
             , disabled := !spec.IsActive, hasState := true
             , status := statusToString st.status
             , consecutiveFailures := st.consecutiveFailures
             , consecutiveSuccesses := st.consecutiveSuccesses
             , lastCycleStartedAt := st.lastCycleStartedAt
             , lastCycleAt := st.lastCycleAt } : SpecStatus)
        | none => missingSpecStatus spec) sp = missingSpecStatus sp := by
      simp only [hmiss]
    rw [← this]
    simp only [snapshotOf, missingSpecStatus]
    exact List.mem_map_of_mem _ hmem
  · simp [missingSpecStatus, Spec.IsActive, hdis]
  · have hrow : buildStatusRow fmt (missingSpecStatus sp) ∈
        (snapshotOf specs
          (iterateCycles cycleInterval outcome probeAt specs n emptyStore)
          now).specs.map (buildStatusRow fmt) := by
      apply List.mem_map_of_mem
      have : (fun spec =>
          match iterateCycles cycleInterval outcome probeAt specs n emptyStore
              spec.http.name with
          | some st =>
              ({ name := spec.http.name, sourcePath := spec.sourcePath
               , disabled := !spec.IsActive, hasState := true
               , status := statusToString st.status
               , consecutiveFailures := st.consecutiveFailures
               , consecutiveSuccesses := st.consecutiveSuccesses
               , lastCycleStartedAt := st.lastCycleStartedAt
               , lastCycleAt := st.lastCycleAt } : SpecStatus)
          | none => missingSpecStatus spec) sp = missingSpecStatus sp := by
        simp only [hmiss]
      rw [← this]
      simp only [snapshotOf, missingSpecStatus]
      exact List.mem_map_of_mem _ hmem
    simpa [buildStatusViewData] using hrow
  · simp [buildStatusRow, missingSpecStatus]
  · simp [buildStatusRow, missingSpecStatus]

end Eddie

namespace Eddie

/-- C9: two snapshot invocations with no intervening store write return
snapshots identical in every field except generatedAt, and their
rendered views agree on specCount and on every row. -/
theorem snapshot_idempotent (specs : List Spec) (store : Store)
    (t1 t2 : Int) (fmt : Int → String) :
    (snapshotOf specs store t1).specs = (snapshotOf specs store t2).specs ∧
    (snapshotOf specs store t1).generatedAt = t1 ∧
    (snapshotOf specs store t2).generatedAt = t2 ∧
    (buildStatusViewData fmt (snapshotOf specs store t1)).specCount =
      (buildStatusViewData fmt (snapshotOf specs store t2)).specCount ∧
    (buildStatusViewData fmt (snapshotOf specs store t1)).rows =
      (buildStatusViewData fmt (snapshotOf specs store t2)).rows :=
  ⟨rfl, rfl, rfl, rfl, rfl⟩

/-- The failure classes validateHTTPSpec reports, in source order. -/
inductive checkFailure where
  | requestError
  | statusMismatch (got want : Int)
  | headerMismatch (headerName got want : String)
  | bodyExactMismatch
  | bodyContainsMismatch (want : String)
deriving DecidableEq, Repr

/-- The received HTTP response as the validator sees it: status code,
the canonicalizing resp.Header.Get lookup, and the body text. -/
structure HTTPResponse where
  statusCode : Int
  headerGet : String → String
  body : String

/-- strings.Contains: sub occurs contiguously within s. -/
def stringContains (s sub : String) : Bool :=
  decide (List.IsInfix sub.data s.data)

/-- runner.go lines 249-254: the range loop over Expect.Header, which
returns on the first configured key whose actual value differs.  (Go
map iteration order is unspecified; the embedding fixes the association
list order.) -/
def findHeaderMismatch (resp : HTTPResponse) :
    List (String × String) → Option (String × String × String)
  | [] => none
  | (headerName, expectedValue) :: rest =>
      let actualValue := resp.headerGet headerName
      if actualValue ≠ expectedValue then
        some (headerName, actualValue, expectedValue)
      else
        findHeaderMismatch resp rest

/-- runner.go lines 245-263: the expectation checks run on a received
response, in source order. -/
def validateExpectations (sp : Spec) (resp : HTTPResponse) :
    Option checkFailure :=
  if 0 < sp.http.expect.code ∧ resp.statusCode ≠ sp.http.expect.code then
    some (checkFailure.statusMismatch resp.statusCode sp.http.expect.code)
  else
    match findHeaderMismatch resp sp.http.expect.header with
    | some (headerName, actualValue, expectedValue) =>
        some (checkFailure.headerMismatch headerName actualValue expectedValue)
    | none =>
        if sp.http.expect.body.exact ≠ "" ∧
            resp.body ≠ sp.http.expect.body.exact then
          some checkFailure.bodyExactMismatch
        else if sp.http.expect.body.contains ≠ "" ∧
            ¬ stringContains resp.body sp.http.expect.body.contains then
          some (checkFailure.bodyContainsMismatch sp.http.expect.body.contains)
        else
          none

/-- runner.go lines 189-264: validateHTTPSpec.  The request phase (URL
parsing and validation, request construction, the network round trip
and the body read, lines 198-243) is abstracted as the fetch argument:
each of its error returns happens before any expectation is checked and
is reported as requestError. -/
def validateHTTPSpec (sp : Spec) (fetch : Except Unit HTTPResponse) :
    Option checkFailure :=
  match fetch with
  | Except.error _ => some checkFailure.requestError
  | Except.ok resp => validateExpectations sp resp

/-- findHeaderMismatch returns none exactly when every configured header
matches. -/
lemma findHeaderMismatch_none_iff (resp : HTTPResponse)
    (hdrs : List (String × String)) :
    findHeaderMismatch resp hdrs = none ↔
      ∀ p ∈ hdrs, resp.headerGet p.1 = p.2 := by
  induction hdrs with
  | nil => simp [findHeaderMismatch]
  | cons p rest ih =>
      rcases p with ⟨n, v⟩
      by_cases h : resp.headerGet n = v
      · simp [findHeaderMismatch, h, ih]
      · simp [findHeaderMismatch, h]

end Eddie

namespace Eddie

/-- C7: the probe returns success exactly when every configured
expectation passes, and otherwise reports the first failing class in
the fixed source order: request-phase (parse or network) error, status
code mismatch, header mismatch (exact match per configured key), body
exact mismatch, body containment mismatch — the containment check still
running when an exact expectation is configured and passes. -/
theorem validateHTTPSpec_spec (sp : Spec) (resp : HTTPResponse) :
    (∀ e : Unit, validateHTTPSpec sp (Except.error e) =
      some checkFailure.requestError) ∧
    (validateHTTPSpec sp (Except.ok resp) = none ↔
      ((0 < sp.http.expect.code → resp.statusCode = sp.http.expect.code) ∧
        (∀ p ∈ sp.http.expect.header, resp.headerGet p.1 = p.2) ∧
        (sp.http.expect.body.exact ≠ "" →
          resp.body = sp.http.expect.body.exact) ∧
        (sp.http.expect.body.contains ≠ "" →
          stringContains resp.body sp.http.expect.body.contains = true))) ∧
    (0 < sp.http.expect.code → resp.statusCode ≠ sp.http.expect.code →
      validateHTTPSpec sp (Except.ok resp) =
        some (checkFailure.statusMismatch resp.statusCode
          sp.http.expect.code)) ∧
    ((0 < sp.http.expect.code → resp.statusCode = sp.http.expect.code) →
      ∀ headerName got want,
        findHeaderMismatch resp sp.http.expect.header =
          some (headerName, got, want) →
        validateHTTPSpec sp (Except.ok resp) =
          some (checkFailure.headerMismatch headerName got want)) ∧
    ((0 < sp.http.expect.code → resp.statusCode = sp.http.expect.code) →
      findHeaderMismatch resp sp.http.expect.header = none →
      sp.http.expect.body.exact ≠ "" →
      resp.body ≠ sp.http.expect.body.exact →
      validateHTTPSpec sp (Except.ok resp) =
        some checkFailure.bodyExactMismatch) ∧
    ((0 < sp.http.expect.code → resp.statusCode = sp.http.expect.code) →
      findHeaderMismatch resp sp.http.expect.header = none →
      (sp.http.expect.body.exact ≠ "" →
        resp.body = sp.http.expect.body.exact) →
      sp.http.expect.body.contains ≠ "" →
      stringContains resp.body sp.http.expect.body.contains = false →
      validateHTTPSpec sp (Except.ok resp) =
        some (checkFailure.bodyContainsMismatch
          sp.http.expect.body.contains)) := by
  refine ⟨fun e => rfl, ?_, ?_, ?_, ?_, ?_⟩
  · constructor
    · intro h
      simp only [validateHTTPSpec, validateExpectations] at h
      by_cases hcode : 0 < sp.http.expect.code ∧
          resp.statusCode ≠ sp.http.expect.code
      · simp [hcode] at h
      · rw [if_neg hcode] at h
        cases hm : findHeaderMismatch resp sp.http.expect.header with
        | some t =>
            rcases t with ⟨a, b, c⟩
            simp [hm] at h
        | none =>
            rw [hm] at h
            refine ⟨fun hpos => by tauto,
              (findHeaderMismatch_none_iff resp sp.http.expect.header).1 hm,
              ?_, ?_⟩
            · intro hex
              by_cases hb : resp.body = sp.http.expect.body.exact
              · exact hb
              · simp [hex, hb] at h
            · intro hc
              by_cases hs : stringContains resp.body
                  sp.http.expect.body.contains = true
              · exact hs
              · have : ¬ (sp.http.expect.body.exact ≠ "" ∧
                    resp.body ≠ sp.http.expect.body.exact) := by
                  intro hand
                  simp [hand] at h
                rw [if_neg this] at h
                simp [hc, hs] at h
    · rintro ⟨hcode, hhdr, hex, hc⟩
      simp only [validateHTTPSpec, validateExpectations]
      have h1 : ¬ (0 < sp.http.expect.code ∧
          resp.statusCode ≠ sp.http.expect.code) := by tauto
      rw [if_neg h1,
        (findHeaderMismatch_none_iff resp sp.http.expect.header).2 hhdr]
      have h2 : ¬ (sp.http.expect.body.exact ≠ "" ∧
          resp.body ≠ sp.http.expect.body.exact) := by tauto
      have h3 : ¬ (sp.http.expect.body.contains ≠ "" ∧
          ¬ stringContains resp.body sp.http.expect.body.contains) := by
        intro hand
        exact hand.2 (by simp [hc hand.1])
      rw [if_neg h2, if_neg h3]
  · intro hpos hne
    simp [validateHTTPSpec, validateExpectations, hpos, hne]
  · intro hcode headerName got want hm
    have h1 : ¬ (0 < sp.http.expect.code ∧
        resp.statusCode ≠ sp.http.expect.code) := by tauto
    simp [validateHTTPSpec, validateExpectations, h1, hm]
  · intro hcode hm hex hne
    have h1 : ¬ (0 < sp.http.expect.code ∧
        resp.statusCode ≠ sp.http.expect.code) := by tauto
    simp [validateHTTPSpec, validateExpectations, h1, hm, hex, hne]
  · intro hcode hm hex hc hnc
    have h1 : ¬ (0 < sp.http.expect.code ∧
        resp.statusCode ≠ sp.http.expect.code) := by tauto
    have h2 : ¬ (sp.http.expect.body.exact ≠ "" ∧
        resp.body ≠ sp.http.expect.body.exact) := by tauto
    simp [validateHTTPSpec, validateExpectations, h1, h2, hm, hc, hnc]

end Eddie

namespace Eddie

/-- A concrete active check definition with a failure hook, used by
concrete witnesses. -/
def exampleActiveSpec : Spec :=
  { version := 1
  , http :=
    { disabled := false
    , name := "other"
    , method := ""
    , followRedirects := false
    , url := "https://example.invalid/"
    , args := []
    , timeout := 0
    , expect := { code := 0, header := [], body := { exact := "", contains := "" } }
    , cycles := { failure := 0, success := 0 }
    , onFailure := "notify.sh"
    , onSuccess := "" }
  , sourcePath := "other.yaml" }

/-- Witness for C6: two check definitions, one disabled, one enabled,
after one cycle of all-successful probes. -/
theorem disabled_spec_skipped_witness :
    iterateCycles 1 (fun _ _ => true) (fun _ _ => 3)
        [exampleDisabledSpec, exampleActiveSpec] 1 emptyStore
        exampleDisabledSpec.http.name = none ∧
    (snapshotOf [exampleDisabledSpec, exampleActiveSpec]
        (iterateCycles 1 (fun _ _ => true) (fun _ _ => 3)
          [exampleDisabledSpec, exampleActiveSpec] 1 emptyStore)
        5).specs.length = [exampleDisabledSpec, exampleActiveSpec].length ∧
    (buildStatusViewData (fun t => toString t)
        (snapshotOf [exampleDisabledSpec, exampleActiveSpec]
          (iterateCycles 1 (fun _ _ => true) (fun _ _ => 3)
            [exampleDisabledSpec, exampleActiveSpec] 1 emptyStore)
          5)).specCount = [exampleDisabledSpec, exampleActiveSpec].length ∧
    missingSpecStatus exampleDisabledSpec ∈
      (snapshotOf [exampleDisabledSpec, exampleActiveSpec]
        (iterateCycles 1 (fun _ _ => true) (fun _ _ => 3)
          [exampleDisabledSpec, exampleActiveSpec] 1 emptyStore)
        5).specs ∧
    (missingSpecStatus exampleDisabledSpec).disabled = true ∧
    (missingSpecStatus exampleDisabledSpec).hasState = false ∧
    buildStatusRow (fun t => toString t)
        (missingSpecStatus exampleDisabledSpec) ∈
      (buildStatusViewData (fun t => toString t)
        (snapshotOf [exampleDisabledSpec, exampleActiveSpec]
          (iterateCycles 1 (fun _ _ => true) (fun _ _ => 3)
            [exampleDisabledSpec, exampleActiveSpec] 1 emptyStore)
          5)).rows ∧
    (buildStatusRow (fun t => toString t)
        (missingSpecStatus exampleDisabledSpec)).lastCycleStartedAt =
      "never" ∧
    (buildStatusRow (fun t => toString t)
        (missingSpecStatus exampleDisabledSpec)).lastCycleAt = "never" :=
  disabled_spec_skipped 1 (fun _ _ => true) (fun _ _ => 3)
    [exampleDisabledSpec, exampleActiveSpec] exampleDisabledSpec
    (fun t => toString t) 5 1 (by simp) rfl (by decide)

/-- The externally observable side effects a transition dispatch can
produce. -/
inductive Effect where
  | runScriptEff (action : String) (specName : String) (script : String)
  | sendEmailEff (recipient : String)
deriving DecidableEq, Repr

/-- How runner.go launches each side effect of one dispatch: in a bare
goroutine with no handle (the go statements at lines 268 and 287), or
inline in the per-target goroutine, whose return the cycle WaitGroup
(runCycle lines 73-88) awaits before the round completes. -/
structure Dispatch where
  background : List Effect
  awaited : List Effect
deriving DecidableEq, Repr

/-- runner.go lines 266-283: triggerFailureActions.  The on_failure
script is spawned with go; sendEmailToAll (lines 303-312) is a plain
call looping over the recipients before returning, so its sends are
executed inline. -/
def triggerFailureActions (hasMailService : Bool)
    (mailRecipients : List String) (sp : Spec) : Dispatch :=
  { background :=
      if sp.http.onFailure ≠ "" then
        [Effect.runScriptEff "on_failure" sp.http.name sp.http.onFailure]
      else []
  , awaited :=
      if hasMailService ∧ mailRecipients ≠ [] then
        mailRecipients.map Effect.sendEmailEff
      else [] }

/-- runner.go lines 285-301: triggerRecoveryActions, symmetric to
triggerFailureActions with the on_success script. -/
def triggerRecoveryActions (hasMailService : Bool)
    (mailRecipients : List String) (sp : Spec) : Dispatch :=
  { background :=
      if sp.http.onSuccess ≠ "" then
        [Effect.runScriptEff "on_success" sp.http.name sp.http.onSuccess]
      else []
  , awaited :=
      if hasMailService ∧ mailRecipients ≠ [] then
        mailRecipients.map Effect.sendEmailEff
      else [] }

/-- Counterexample to C8: with a mail service and one recipient
configured, the notification send triggered by an EnteredFailing
transition is executed inline in the per-target goroutine — it is in
the awaited effect list and not among the background tasks, so the
round barrier does wait for it. -/
theorem notification_send_awaited :
    Effect.sendEmailEff "ops" ∈
      (triggerFailureActions true ["ops"] exampleActiveSpec).awaited ∧
    Effect.sendEmailEff "ops" ∉
      (triggerFailureActions true ["ops"] exampleActiveSpec).background := by
  decide

/-- C8 (amended): script executions are the only background
(fire-and-forget, unawaited) tasks of a dispatch, while every
notification send runs inline in the per-target goroutine and is
therefore awaited by the cycle round barrier; when a mail service and a
non-empty recipient list are configured, exactly one awaited send per
recipient is produced. -/
theorem dispatch_structure (hasMailService : Bool)
    (recipients : List String) (sp : Spec) :
    (∀ e ∈ (triggerFailureActions hasMailService recipients sp).background,
      ∃ scr, e = Effect.runScriptEff "on_failure" sp.http.name scr) ∧
    (∀ e ∈ (triggerRecoveryActions hasMailService recipients sp).background,
      ∃ scr, e = Effect.runScriptEff "on_success" sp.http.name scr) ∧
    (∀ e ∈ (triggerFailureActions hasMailService recipients sp).awaited,
      ∃ r, r ∈ recipients ∧ e = Effect.sendEmailEff r) ∧
    (∀ e ∈ (triggerRecoveryActions hasMailService recipients sp).awaited,
      ∃ r, r ∈ recipients ∧ e = Effect.sendEmailEff r) ∧
    (hasMailService = true → recipients ≠ [] →
      (triggerFailureActions hasMailService recipients sp).awaited =
        recipients.map Effect.sendEmailEff ∧
      (triggerRecoveryActions hasMailService recipients sp).awaited =
        recipients.map Effect.sendEmailEff) := by
  refine ⟨?_, ?_, ?_, ?_, ?_⟩
  · intro e he
    simp only [triggerFailureActions] at he
    split_ifs at he <;> simp_all
  · intro e he
    simp only [triggerRecoveryActions] at he
    split_ifs at he <;> simp_all
  · intro e he
    simp only [triggerFailureActions] at he
    split_ifs at he <;> simp_all
    tauto
  · intro e he
    simp only [triggerRecoveryActions] at he
    split_ifs at he <;> simp_all
    tauto
  · intro hms hrec
    constructor <;> simp [triggerFailureActions, triggerRecoveryActions, hms, hrec]

end Eddie
